import Mathlib

/-!
# Verification of the Credit-Risk-Predictor feature pipeline

A shallow embedding of `src/predict.py` and `src/api.py`:

* raw request values (`RawVal`) are JSON numbers or strings; Python floats are
  modelled as rationals (`ℚ`);
* `CreditRiskModel.build_feature_vector` becomes `buildFeatureVector`, with the
  Python dict modelled as a total function `String → ℚ` updated in source order;
* the external XGBoost model, the numpy random generator and the shap library
  are opaque parameters (`MLModel`, `RngModel`, `ShapLib`);
* Flask handlers become pure functions returning a response value and an HTTP
  status code.
-/

set_option maxRecDepth 8000

namespace CreditRisk

/-- A raw value in a request record: a JSON number or a JSON string
(spec section 3: raw values are numeric or categorical strings).
Python floats are modelled as rationals. -/
inductive RawVal where
  | num (q : ℚ)
  | str (s : String)
deriving DecidableEq

/-- A raw input record: a Python dict from attribute names to raw values,
modelled as a partial map.  Keys not present in the dict map to `none`. -/
def Inputs : Type := String → Option RawVal

/-- `inputs.get(k, d)` on a Python dict. -/
def pyGetD (inputs : Inputs) (k : String) (d : RawVal) : RawVal :=
  (inputs k).getD d

/-- Python `str(v)`: identity on strings; numbers are rendered to text
(the exact numeral format is irrelevant to the properties proved here,
because no indicator-column suffix consists of digits or a slash). -/
def pyStr : RawVal → String
  | .str s => s
  | .num q => toString q

/-- Python `str.upper()` (ASCII case mapping, which covers every
categorical option and column suffix appearing in the program). -/
def pyUpper (s : String) : String :=
  ⟨s.data.map Char.toUpper⟩

/-- Parse a run of decimal digits into a natural number; `none` on a
non-digit.  An empty run parses as 0 (emptiness is checked by callers). -/
def parseNatChars (cs : List Char) : Option ℕ :=
  cs.foldl
    (fun acc c =>
      acc.bind fun a => if c.isDigit then some (a * 10 + (c.toNat - 48)) else none)
    (some 0)

/-- Parse an unsigned decimal numeral, optionally with a fractional part.
Models the common cases accepted by Python `float(str)`; exotic forms
(exponents, `inf`, `nan`) are conservatively rejected. -/
def parseUnsigned (cs : List Char) : Option ℚ :=
  let intPart := cs.takeWhile (fun c => c.isDigit)
  let rest := cs.dropWhile (fun c => c.isDigit)
  match rest with
  | [] =>
    if intPart.isEmpty then none
    else (parseNatChars intPart).map (fun n => (n : ℚ))
  | '.' :: frac =>
    if intPart.isEmpty && frac.isEmpty then none
    else if frac.all (fun c => c.isDigit) then
      (parseNatChars intPart).bind fun ip =>
        (parseNatChars frac).map fun fp =>
          (ip : ℚ) + (fp : ℚ) / ((10 : ℚ) ^ frac.length)
    else none
  | _ => none

/-- Python `float(str)` (with surrounding whitespace stripped). -/
def pyFloatOfString (s : String) : Option ℚ :=
  match s.trim.data with
  | '+' :: rest => parseUnsigned rest
  | '-' :: rest => (parseUnsigned rest).map (fun q => -q)
  | cs => parseUnsigned cs

/-- Python `float(v)`: a number coerces to itself; a string must parse as a
numeral, otherwise `float` raises `ValueError`, modelled as `none`. -/
def pyFloat : RawVal → Option ℚ
  | .num q => some q
  | .str s => pyFloatOfString s

/-! ## Feature schema (`CreditRiskModel._infer_feature_names` fallback) -/

/-- The hardcoded fallback schema of `_infer_feature_names`
(`src/predict.py` lines 36-67), the only feature list visible in the
source: introspection reads the opaque model artifact. -/
def defaultFeatures : List String :=
  [ "person_age",
    "person_income",
    "person_emp_length",
    "loan_amnt",
    "loan_int_rate",
    "loan_percent_income",
    "cb_person_cred_hist_length",
    "person_home_ownership_MORTGAGE",
    "person_home_ownership_OWN",
    "person_home_ownership_RENT",
    "person_home_ownership_OTHER",
    "loan_intent_DEBTCONSOLIDATION",
    "loan_intent_EDUCATION",
    "loan_intent_HOMEIMPROVEMENT",
    "loan_intent_MEDICAL",
    "loan_intent_PERSONAL",
    "loan_intent_VENTURE",
    "loan_grade_B",
    "loan_grade_C",
    "loan_grade_D",
    "loan_grade_E",
    "loan_grade_F",
    "loan_grade_G",
    "cb_person_default_on_file_Y" ]

/-- Python `col.startswith(p)`. -/
def strStartsWith (col p : String) : Bool :=
  col.data.take p.data.length == p.data

/-- The `elif` chain of `_one_hot_columns`: which categorical group a
column belongs to, if any. -/
def groupOf (col : String) : Option String :=
  if strStartsWith col "person_home_ownership_" then some "person_home_ownership"
  else if strStartsWith col "loan_intent_" then some "loan_intent"
  else if strStartsWith col "loan_grade_" then some "loan_grade"
  else if strStartsWith col "cb_person_default_on_file_" then some "cb_person_default_on_file"
  else none

/-- `CreditRiskModel._one_hot_columns`: the dummy columns of group `g`,
in feature-list order. -/
def oneHotColumns (fns : List String) (g : String) : List String :=
  fns.filter (fun col => groupOf col == some g)

/-- Python `col.endswith(suf)`. -/
def endsWithStr (col suf : String) : Bool :=
  decide (suf.data <:+ col.data)

/-! ## `CreditRiskModel.build_feature_vector` -/

/-- One step of the numeric-assignment loop:
`if k in data: data[k] = v` (the keys of `data` are the feature names). -/
def setIn (fns : List String) (k : String) (v : ℚ) (d : String → ℚ) : String → ℚ :=
  if k ∈ fns then fun n => if n = k then v else d n else d

/-- `for k, v in numeric_map.items(): if k in data: data[k] = v`. -/
def applyNumeric (fns : List String) (nm : List (String × ℚ)) (d : String → ℚ) :
    String → ℚ :=
  nm.foldl (fun d kv => setIn fns kv.1 kv.2 d) d

/-- One categorical loop: `for col in group: if pred(col): data[col] = 1.0`. -/
def applyGroup (cols : List String) (pred : String → Bool) (d : String → ℚ) :
    String → ℚ :=
  cols.foldl (fun d col => if pred col then fun n => if n = col then 1 else d n else d) d

/-- The seven numeric attribute keys, in `numeric_map` order. -/
def numericKeys : List String :=
  [ "person_age", "person_income", "person_emp_length", "loan_amnt",
    "loan_int_rate", "loan_percent_income", "cb_person_cred_hist_length" ]

/-- The uppercased categorical value the encoder reads for group `g`
(e.g. `str(inputs.get("loan_intent", "")).upper()`). -/
def catVal (inputs : Inputs) (g : String) : String :=
  pyUpper (pyStr (pyGetD inputs g (.str "")))

/-- `CreditRiskModel.build_feature_vector` (`src/predict.py` lines 182-235).
The result is the single DataFrame row as an ordered list of
(column name, value) pairs; `none` models a `ValueError` raised by one of
the seven `float(...)` coercions. -/
def buildFeatureVector (fns : List String) (inputs : Inputs) :
    Option (List (String × ℚ)) := do
  let age ← pyFloat (pyGetD inputs "person_age" (.num 0))
  let income ← pyFloat (pyGetD inputs "person_income" (.num 0))
  let emp ← pyFloat (pyGetD inputs "person_emp_length" (.num 0))
  let amnt ← pyFloat (pyGetD inputs "loan_amnt" (.num 0))
  let rate ← pyFloat (pyGetD inputs "loan_int_rate" (.num 0))
  let pct ← pyFloat (pyGetD inputs "loan_percent_income" (.num 0))
  let hist ← pyFloat (pyGetD inputs "cb_person_cred_hist_length" (.num 0))
  let numericMap : List (String × ℚ) :=
    [ ("person_age", age), ("person_income", income), ("person_emp_length", emp),
      ("loan_amnt", amnt), ("loan_int_rate", rate), ("loan_percent_income", pct),
      ("cb_person_cred_hist_length", hist) ]
  let data1 := applyNumeric fns numericMap (fun _ => 0)
  let data2 := applyGroup (oneHotColumns fns "person_home_ownership")
    (fun col => endsWithStr col ("_" ++ catVal inputs "person_home_ownership")) data1
  let data3 := applyGroup (oneHotColumns fns "loan_intent")
    (fun col => endsWithStr col ("_" ++ catVal inputs "loan_intent")) data2
  let data4 := applyGroup (oneHotColumns fns "loan_grade")
    (fun col => endsWithStr col ("_" ++ catVal inputs "loan_grade")) data3
  let data5 := applyGroup (oneHotColumns fns "cb_person_default_on_file")
    (fun col => endsWithStr col "_Y" && catVal inputs "cb_person_default_on_file" == "Y")
    data4
  return fns.map (fun name => (name, data5 name))

/-! ## `CreditRiskModel.risk_category` -/

/-- `CreditRiskModel.risk_category` (`src/predict.py` lines 244-252):
`(label, color)` from fixed probability thresholds. -/
def risk_category (proba : ℚ) : String × String :=
  if proba < 0.2 then ("Low Risk", "#2e7d32")
  else if proba < 0.5 then ("Medium Risk", "#f9a825")
  else ("High Risk", "#c62828")

/-! ## The opaque trained model and `predict_proba` -/

/-- The loaded model artifact, as far as the source observes it: the declared
feature list together with the opaque prediction functions
(`model.predict_proba(X)[:, 1][0]` and `model.predict(X)[0]` on a one-row
matrix). -/
structure MLModel where
  featureNames : List String
  predictProba1 : List ℚ → ℚ
  predictLabel : List ℚ → ℤ

/-- The numeric values of a feature row, in column order. -/
def rowVals (row : List (String × ℚ)) : List ℚ :=
  row.map Prod.snd

/-- `CreditRiskModel.predict_proba` (`src/predict.py` lines 237-242). -/
def predict_proba (m : MLModel) (inputs : Inputs) : Option (ℚ × ℤ) :=
  (buildFeatureVector m.featureNames inputs).map
    (fun row => (m.predictProba1 (rowVals row), m.predictLabel (rowVals row)))

/-! ## `CreditRiskModel.ideal_defaults` -/

/-- `CreditRiskModel.ideal_defaults` (`src/predict.py` lines 70-85). -/
def ideal_defaults : List (String × RawVal) :=
  [ ("person_age", .num 35),
    ("person_income", .num 85000),
    ("person_emp_length", .num 8),
    ("loan_amnt", .num 10000),
    ("loan_int_rate", .num 11.0),
    ("loan_percent_income", .num 0.15),
    ("cb_person_cred_hist_length", .num 10),
    ("person_home_ownership", .str "OWN"),
    ("loan_intent", .str "DEBTCONSOLIDATION"),
    ("loan_grade", .str "A"),
    ("cb_person_default_on_file", .str "N") ]

/-- `defaults[k]` for the numeric entries of `ideal_defaults`. -/
def idealNum (k : String) : ℚ :=
  match ideal_defaults.find? (fun kv => kv.1 == k) with
  | some (_, RawVal.num q) => q
  | _ => 0

/-! ## `CreditRiskModel._make_background` -/

/-- The numpy random generator, treated as an opaque deterministic stream:
`init seed` models `np.random.default_rng(seed)`, `normal` models
`rng.normal(mean, std)` and `choice` models `rng.choice(options)`,
each returning the drawn value and the advanced generator state. -/
structure RngModel where
  State : Type
  init : ℕ → State
  normal : State → ℚ → ℚ → ℚ × State
  choice : State → List String → String × State

/-- `np.clip(x, lo, hi)`. -/
def npClip (x lo hi : ℚ) : ℚ :=
  max lo (min x hi)

/-- The categorical option lists of `_make_background`. -/
def home_opts : List String := ["OWN", "MORTGAGE", "RENT", "OTHER"]

def intent_opts : List String :=
  ["DEBTCONSOLIDATION", "HOMEIMPROVEMENT", "EDUCATION", "MEDICAL", "PERSONAL", "VENTURE"]

def grade_opts : List String := ["A", "B", "C", "D", "E", "F", "G"]

def cb_opts : List String := ["N", "Y"]

/-- One loop iteration of `_make_background`: draw the `sample` dict,
threading the generator state through the draws in source order. -/
def sampleRecord (M : RngModel) (s : M.State) : Inputs × M.State :=
  let r1 := M.normal s (idealNum "person_age") 8
  let age := npClip r1.1 18 90
  let r2 := M.normal r1.2 (idealNum "person_income") 30000
  let income := npClip r2.1 10000 300000
  let r3 := M.normal r2.2 (idealNum "person_emp_length") 3
  let emp := npClip r3.1 0 40
  let r4 := M.normal r3.2 (idealNum "loan_amnt") 8000
  let amnt := npClip r4.1 500 100000
  let r5 := M.normal r4.2 (idealNum "loan_int_rate") 5
  let rate := npClip r5.1 1 40
  let r6 := M.normal r5.2 (idealNum "loan_percent_income") 0.08
  let pct := npClip r6.1 0 1
  let r7 := M.normal r6.2 (idealNum "cb_person_cred_hist_length") 5
  let hist := npClip r7.1 0 40
  let c1 := M.choice r7.2 home_opts
  let c2 := M.choice c1.2 intent_opts
  let c3 := M.choice c2.2 grade_opts
  let c4 := M.choice c3.2 cb_opts
  let sample : Inputs := fun k =>
    if k = "person_age" then some (.num age)
    else if k = "person_income" then some (.num income)
    else if k = "person_emp_length" then some (.num emp)
    else if k = "loan_amnt" then some (.num amnt)
    else if k = "loan_int_rate" then some (.num rate)
    else if k = "loan_percent_income" then some (.num pct)
    else if k = "cb_person_cred_hist_length" then some (.num hist)
    else if k = "person_home_ownership" then some (.str c1.1)
    else if k = "loan_intent" then some (.str c2.1)
    else if k = "loan_grade" then some (.str c3.1)
    else if k = "cb_person_default_on_file" then some (.str c4.1)
    else none
  (sample, c4.2)

/-- The `for _ in range(n)` loop of `_make_background`: each iteration draws a
sample and encodes it through `build_feature_vector`; a raised encoding error
aborts the whole call (`none`). -/
def mkBgRows (M : RngModel) (fns : List String) : ℕ → M.State → Option (List (List (String × ℚ)))
  | 0, _ => some []
  | n + 1, s =>
    let ss := sampleRecord M s
    match buildFeatureVector fns ss.1, mkBgRows M fns n ss.2 with
    | some row, some rest => some (row :: rest)
    | _, _ => none

/-- `CreditRiskModel._make_background` (`src/predict.py` lines 106-180):
the generator is seeded with the fixed constant 42 inside the call. -/
def make_background (M : RngModel) (m : MLModel) (n : ℕ) :
    Option (List (List (String × ℚ))) :=
  mkBgRows M m.featureNames n (M.init 42)

/-- `_make_background` with its default argument `n = 200`. -/
def make_background_default (M : RngModel) (m : MLModel) :
    Option (List (List (String × ℚ))) :=
  make_background M m 200

/-! ## `CreditRiskModel.explain_shap` -/

/-- One row of the explanation DataFrame:
columns `[feature, shap_value, abs_shap]`. -/
structure Contrib where
  feature : String
  shap_value : ℚ
  abs_shap : ℚ
deriving DecidableEq

/-- The sort key of `df.sort_values("abs_shap", ascending=False)`:
descending absolute contribution. -/
def absDesc (a b : Contrib) : Prop :=
  b.abs_shap ≤ a.abs_shap

instance : DecidableRel absDesc :=
  fun a b => inferInstanceAs (Decidable (b.abs_shap ≤ a.abs_shap))

instance : IsTotal Contrib absDesc :=
  ⟨fun a b => le_total b.abs_shap a.abs_shap⟩

instance : IsTrans Contrib absDesc :=
  ⟨fun _ _ _ h1 h2 => le_trans h2 h1⟩

/-- The shap library, as far as the source observes it: `TreeExplainer`
(given the background matrix and the input row) and the generic `Explainer`
(given the input row, which it also uses as its own reference), each either
returning the flattened contribution vector with its expected value, or
raising (`Except.error`). -/
structure ShapLib where
  treeExplainer : List (List ℚ) → List ℚ → Except String (List ℚ × ℚ)
  genericExplainer : List ℚ → Except String (List ℚ × ℚ)

/-- The first `try` block of `explain_shap`: build the 200-row background and
run the tree-structure-aware explainer on it; any raised exception (including
a background-generation failure) becomes an `Except.error`. -/
def treeTry (M : RngModel) (lib : ShapLib) (m : MLModel) (xrow : List (String × ℚ)) :
    Except String (List ℚ × ℚ) :=
  match make_background M m 200 with
  | none => .error "background generation failed"
  | some bg => lib.treeExplainer (bg.map rowVals) (rowVals xrow)

/-- Both attribution attempts of `explain_shap`: on a tree-explainer failure
fall back to the generic explainer; if that fails too, raise
`RuntimeError("Failed to compute SHAP values: ...")`. -/
def shapTries (M : RngModel) (lib : ShapLib) (m : MLModel) (xrow : List (String × ℚ)) :
    Except String (List ℚ × ℚ) :=
  match treeTry M lib m xrow with
  | .ok r => .ok r
  | .error _ =>
    match lib.genericExplainer (rowVals xrow) with
    | .ok r => .ok r
    | .error e2 => .error ("Failed to compute SHAP values: " ++ e2)

/-- `CreditRiskModel.explain_shap` (`src/predict.py` lines 254-317).
`sl = none` models `shap is None` (import failed).  On success returns the
sorted contribution DataFrame and the meta pair
`(base_value, prediction_probability)`. -/
def explain_shap (M : RngModel) (sl : Option ShapLib) (m : MLModel) (inputs : Inputs) :
    Except String (List Contrib × ℚ × ℚ) :=
  match sl with
  | none =>
    .error "SHAP is not installed. Please install shap to use explanations."
  | some lib =>
    match buildFeatureVector m.featureNames inputs with
    | none => .error "could not convert input to float"
    | some xrow =>
      match shapTries M lib m xrow with
      | .error e => .error e
      | .ok (shapArr, baseValue) =>
        let df := (m.featureNames.zip shapArr).map
          (fun p => { feature := p.1, shap_value := p.2, abs_shap := |p.2| })
        let sorted := df.insertionSort absDesc
        match predict_proba m inputs with
        | none => .error "could not convert input to float"
        | some pp => .ok (sorted, baseValue, pp.1)

/-! ## The Flask handlers (`src/api.py`) -/

/-- The JSON body of a request to `/api/predict`, as a Python dict built from
a JSON object (later duplicate keys override earlier ones). -/
def inputsOfJson (data : List (String × RawVal)) : Inputs :=
  fun k => (data.reverse.find? (fun kv => kv.1 == k)).map Prod.snd

/-- Python truthiness test `if not data:` on `request.json`:
an absent body and an empty object `{}` are both falsy. -/
def pyFalsyJson (data : Option (List (String × RawVal))) : Bool :=
  match data with
  | none => true
  | some l => l.isEmpty

/-- Response body of `/api/defaults`. -/
inductive DefaultsResp where
  | error (msg : String)
  | ok (defaults : List (String × RawVal))
deriving DecidableEq

/-- The `/api/defaults` handler (`src/api.py` lines 18-22), returning
body and HTTP status. -/
def api_get_defaults (model : Option MLModel) : DefaultsResp × ℕ :=
  match model with
  | none => (.error "Model not loaded", 500)
  | some _ => (.ok ideal_defaults, 200)

/-- Response body of `/api/predict`. -/
inductive ApiResp where
  | error (msg : String)
  | ok (probability : ℚ) (prediction : ℤ) (risk_label : String) (risk_color : String)
    (shap_values : List Contrib) (base_value : ℚ) (prediction_probability : ℚ)
deriving DecidableEq

/-- The `/api/predict` handler (`src/api.py` lines 24-56): `model = none`
models the failed-startup global, `data` the parsed request body; any
exception inside the `try` block is returned as a 500 error response. -/
def api_predict (M : RngModel) (sl : Option ShapLib) (model : Option MLModel)
    (data : Option (List (String × RawVal))) : ApiResp × ℕ :=
  match model with
  | none => (.error "Model not loaded", 500)
  | some m =>
    if pyFalsyJson data then (.error "No input data provided", 400)
    else
      let inputs := inputsOfJson (data.getD [])
      match predict_proba m inputs with
      | none => (.error "could not convert input to float", 500)
      | some pp =>
        let lc := risk_category pp.1
        match explain_shap M sl m inputs with
        | .error e => (.error e, 500)
        | .ok r =>
          (.ok pp.1 pp.2 lc.1 lc.2 (r.1.take 20) r.2.1 r.2.2, 200)

/-! ## Helper lemmas -/

/-- Successful encoding always yields the row
`[(name, data[name]) for name in feature_names]` for some final dict. -/
theorem buildFeatureVector_shape (fns : List String) (inputs : Inputs)
    (row : List (String × ℚ)) (h : buildFeatureVector fns inputs = some row) :
    ∃ d : String → ℚ, row = fns.map (fun name => (name, d name)) := by
  unfold buildFeatureVector at h
  simp only [bind, Option.bind_eq_some, pure, Option.some.injEq] at h
  obtain ⟨age, -, income, -, emp, -, amnt, -, rate, -, pct, -, hist, -, hrow⟩ := h
  exact ⟨_, hrow.symm⟩

/-- The numeric ranking of the three risk tiers. -/
def tierRank (label : String) : ℕ :=
  if label = "Low Risk" then 0 else if label = "Medium Risk" then 1 else 2

/-- The eleven attribute keys `build_feature_vector` reads. -/
def knownKeys : List String :=
  numericKeys ++
    ["person_home_ownership", "loan_intent", "loan_grade", "cb_person_default_on_file"]

/-- The empty raw input record. -/
def emptyRecord : Inputs := fun _ => none

/-! ## Claims -/

/-- C1: for every raw input record, whenever `build_feature_vector` returns a
row, that row has exactly one entry per declared feature name, and its column
names are exactly `feature_names` in order. -/
theorem claim_C1_feature_vector_shape (fns : List String) (inputs : Inputs)
    (row : List (String × ℚ)) (h : buildFeatureVector fns inputs = some row) :
    row.length = fns.length ∧ row.map Prod.fst = fns := by
  obtain ⟨d, rfl⟩ := buildFeatureVector_shape fns inputs row h
  constructor
  · simp
  · rw [List.map_map]
    exact List.map_id fns

/-- C1 witness: the encoder on the empty record returns the all-zero row over
the fallback schema, whose length and column order match the schema. -/
theorem claim_C1_feature_vector_shape_witness :
    buildFeatureVector defaultFeatures emptyRecord =
      some (defaultFeatures.map (fun name => (name, (0 : ℚ)))) ∧
    (defaultFeatures.map (fun name => (name, (0 : ℚ)))).length = defaultFeatures.length ∧
    (defaultFeatures.map (fun name => (name, (0 : ℚ)))).map Prod.fst = defaultFeatures := by
  have h : buildFeatureVector defaultFeatures emptyRecord =
      some (defaultFeatures.map (fun name => (name, (0 : ℚ)))) := by decide
  exact ⟨h, claim_C1_feature_vector_shape defaultFeatures emptyRecord _ h⟩

/-! ### One-hot invariant machinery (for C2) -/

/-- Evaluating a categorical assignment loop: a column ends up 1 exactly when
it is in the column list of the loop and its suffix test succeeds; every other name
keeps its previous value. -/
theorem applyGroup_eval (cols : List String) (pred : String → Bool) (d : String → ℚ)
    (n : String) :
    applyGroup cols pred d n = if n ∈ cols ∧ pred n = true then 1 else d n := by
  induction cols generalizing d with
  | nil => simp [applyGroup]
  | cons c cs ih =>
    show applyGroup cs pred (if pred c then fun x => if x = c then 1 else d x else d) n = _
    rw [ih]
    by_cases h1 : n ∈ cs ∧ pred n = true
    · simp [h1, List.mem_cons, h1.1, h1.2]
    · by_cases hnc : n = c
      · subst hnc
        by_cases hpc : pred n = true
        · simp [h1, hpc, List.mem_cons]
        · simp [h1, hpc, List.mem_cons]
      · have hm : (n ∈ c :: cs) ↔ n ∈ cs := by simp [List.mem_cons, hnc]
        by_cases hpc : pred c = true
        · simp [h1, hpc, hnc, hm]
        · simp [h1, hpc, hm]

/-- The numeric-assignment loop leaves a name untouched when it is not a key
of `numeric_map`. -/
theorem applyNumeric_unused (fns : List String) (nm : List (String × ℚ))
    (d : String → ℚ) (n : String) (h : ∀ kv ∈ nm, kv.1 ≠ n) :
    applyNumeric fns nm d n = d n := by
  induction nm generalizing d with
  | nil => rfl
  | cons kv rest ih =>
    show applyNumeric fns rest (setIn fns kv.1 kv.2 d) n = d n
    rw [ih _ (fun x hx => h x (List.mem_cons_of_mem kv hx))]
    unfold setIn
    by_cases hk : kv.1 ∈ fns
    · rw [if_pos hk]
      exact if_neg (fun he => h kv (List.mem_cons_self kv rest) he.symm)
    · rw [if_neg hk]

/-- Membership in a categorical group, in terms of `groupOf`. -/
theorem mem_oneHotColumns (fns : List String) (g col : String) :
    col ∈ oneHotColumns fns g ↔ col ∈ fns ∧ groupOf col = some g := by
  simp [oneHotColumns, List.mem_filter]

/-- Two column names share no tail that starts with the underscore separator.
For every pair of distinct dummy columns of one categorical group this holds
(checked by `decide`), which is what makes the suffix matching of a group
mutually exclusive. -/
def noSharedTail (a b : String) : Prop :=
  ∀ s ∈ a.data.tails, s.head? = some '_' → s ∉ b.data.tails

instance (a b : String) : Decidable (noSharedTail a b) := by
  unfold noSharedTail; infer_instance

/-- If two columns share no underscore-headed tail, no value `v` makes both
`a.endswith("_" + v)` and `b.endswith("_" + v)` true. -/
theorem not_both_endsWith (a b : String) (hab : noSharedTail a b) (v : String) :
    ¬(endsWithStr a ("_" ++ v) = true ∧ endsWithStr b ("_" ++ v) = true) := by
  rintro ⟨ha, hb⟩
  rw [endsWithStr, decide_eq_true_eq] at ha hb
  have hdata : ("_" ++ v).data = '_' :: v.data := rfl
  rw [hdata] at ha hb
  exact hab _ ((List.mem_tails _ _).2 ha) rfl ((List.mem_tails _ _).2 hb)

/-- A predicate that holds on at most one element of a duplicate-free list,
pairwise, is counted at most once. -/
theorem countP_le_one_of_excl (p : String → Bool) (cols : List String)
    (hnd : cols.Nodup)
    (h : ∀ a ∈ cols, ∀ b ∈ cols, a ≠ b → ¬(p a = true ∧ p b = true)) :
    cols.countP p ≤ 1 := by
  induction cols with
  | nil => simp
  | cons c cs ih =>
    rw [List.countP_cons]
    rcases List.nodup_cons.1 hnd with ⟨hc, hcs⟩
    by_cases hpc : p c = true
    · have hz : cs.countP p = 0 := by
        rw [List.countP_eq_zero]
        intro b hb hpb
        exact h c (List.mem_cons_self c cs) b (List.mem_cons_of_mem c hb)
          (fun he => hc (he ▸ hb)) ⟨hpc, hpb⟩
      simp [hz, hpc]
    · have hle : cs.countP p ≤ 1 :=
        ih hcs (fun a ha b hb => h a (List.mem_cons_of_mem c ha) b (List.mem_cons_of_mem c hb))
      simpa [hpc] using hle

/-- Core counting facts about a group whose cells are 1-iff-matched and whose
match predicate is pairwise exclusive. -/
theorem group_count_char (p : String → Bool) (cols : List String) (d : String → ℚ)
    (hnd : cols.Nodup)
    (hcell : ∀ col ∈ cols, d col = if p col = true then 1 else 0)
    (hpair : ∀ a ∈ cols, ∀ b ∈ cols, a ≠ b → ¬(p a = true ∧ p b = true)) :
    cols.countP (fun col => d col == 1) ≤ 1 ∧
    ((∃ col ∈ cols, p col = true) → cols.countP (fun col => d col == 1) = 1) ∧
    ((∀ col ∈ cols, p col = false) → ∀ col ∈ cols, d col = 0) := by
  have hcount : cols.countP (fun col => d col == 1) = cols.countP p := by
    apply List.countP_congr
    intro col hc
    rw [hcell col hc]
    by_cases hp : p col = true
    · simp [hp]
    · simp [hp]
  refine ⟨?_, ?_, ?_⟩
  · rw [hcount]
    exact countP_le_one_of_excl p cols hnd hpair
  · rintro ⟨col, hc, hp⟩
    have h1 : 0 < cols.countP p := List.countP_pos_iff.2 ⟨col, hc, hp⟩
    have h2 : cols.countP p ≤ 1 := countP_le_one_of_excl p cols hnd hpair
    rw [hcount]
    omega
  · intro hall col hc
    rw [hcell col hc, if_neg (by simp [hall col hc])]

/-- Restricting the row-level count to the columns of one group. -/
theorem countP_row_to_cols (fns : List String) (g : String) (d : String → ℚ) :
    fns.countP (fun n => decide (n ∈ oneHotColumns fns g) && (d n == 1)) =
      (oneHotColumns fns g).countP (fun n => d n == 1) := by
  rw [oneHotColumns, List.countP_filter]
  apply List.countP_congr
  intro n hn
  by_cases hgn : groupOf n = some g
  · simp [oneHotColumns, List.mem_filter, hn, hgn]
  · simp [oneHotColumns, List.mem_filter, hgn]

/-- Loops of a *different* categorical group never touch a column of group
`g`. -/
theorem applyGroup_other (fns : List String) (g gOther : String) (pred : String → Bool)
    (d : String → ℚ) (col : String) (hcol : groupOf col = some g) (hne : g ≠ gOther) :
    applyGroup (oneHotColumns fns gOther) pred d col = d col := by
  rw [applyGroup_eval, if_neg]
  rintro ⟨hm, -⟩
  rcases (mem_oneHotColumns fns gOther col).1 hm with ⟨-, hgc⟩
  exact hne (Option.some.inj (hcol.symm.trans hgc))

/-- The loop of the own group of a column sets it to 1 exactly when its suffix
test succeeds. -/
theorem applyGroup_own (fns : List String) (g : String) (pred : String → Bool)
    (d : String → ℚ) (col : String) (hcol : groupOf col = some g) (hmem : col ∈ fns) :
    applyGroup (oneHotColumns fns g) pred d col = if pred col = true then 1 else d col := by
  rw [applyGroup_eval]
  have hin : col ∈ oneHotColumns fns g := (mem_oneHotColumns fns g col).2 ⟨hmem, hcol⟩
  by_cases hp : pred col = true
  · rw [if_pos ⟨hin, hp⟩, if_pos hp]
  · rw [if_neg (fun hh => hp hh.2), if_neg hp]

/-- None of the seven numeric keys belongs to a categorical group. -/
theorem groupOf_numericKeys : ∀ k ∈ numericKeys, groupOf k = none := by decide

/-- The numeric loop writes only the seven numeric keys, none of which lies
in a categorical group. -/
theorem applyNumeric_group (fns : List String) (nm : List (String × ℚ))
    (hkeys : nm.map Prod.fst = numericKeys) (col g : String)
    (hcol : groupOf col = some g) :
    applyNumeric fns nm (fun _ => 0) col = 0 := by
  apply applyNumeric_unused
  intro kv hkv he
  have h1 : kv.1 ∈ numericKeys := hkeys ▸ List.mem_map_of_mem Prod.fst hkv
  rw [he] at h1
  rw [groupOf_numericKeys col h1] at hcol
  exact Option.noConfusion hcol

/-- Gluing: the three counting conclusions about the encoded row, for one
group whose final cell values and match predicate are characterized. -/
theorem C2_glue (fns : List String) (g : String) (d : String → ℚ) (p : String → Bool)
    (hnd : (oneHotColumns fns g).Nodup)
    (hcell : ∀ col ∈ oneHotColumns fns g, d col = if p col = true then 1 else 0)
    (hpair : ∀ a ∈ oneHotColumns fns g, ∀ b ∈ oneHotColumns fns g,
      a ≠ b → ¬(p a = true ∧ p b = true)) :
    (fns.map (fun n => (n, d n))).countP
        (fun e => decide (e.1 ∈ oneHotColumns fns g) && (e.2 == 1)) ≤ 1 ∧
    ((∃ col ∈ oneHotColumns fns g, p col = true) →
      (fns.map (fun n => (n, d n))).countP
        (fun e => decide (e.1 ∈ oneHotColumns fns g) && (e.2 == 1)) = 1) ∧
    ((∀ col ∈ oneHotColumns fns g, p col = false) →
      ∀ e ∈ fns.map (fun n => (n, d n)), e.1 ∈ oneHotColumns fns g → e.2 = 0) := by
  have hrw : (fns.map (fun n => (n, d n))).countP
      (fun e => decide (e.1 ∈ oneHotColumns fns g) && (e.2 == 1)) =
      (oneHotColumns fns g).countP (fun n => d n == 1) := by
    rw [List.countP_map, ← countP_row_to_cols fns g d]
    rfl
  obtain ⟨hle, hone, hzero⟩ := group_count_char p (oneHotColumns fns g) d hnd hcell hpair
  refine ⟨hrw ▸ hle, fun hex => hrw ▸ hone hex, fun hall e he hme => ?_⟩
  rcases List.mem_map.1 he with ⟨n, hn, rfl⟩
  exact hzero hall n hme

/-- The four categorical groups. -/
def categoryGroups : List String :=
  ["person_home_ownership", "loan_intent", "loan_grade", "cb_person_default_on_file"]

/-- The suffix test `build_feature_vector` applies to a dummy column of group
`g`: `col.endswith("_" + value)` for the three plain groups, and
`col.endswith("_Y") and value == "Y"` for the prior-default flag. -/
def groupMatch (inputs : Inputs) (g col : String) : Bool :=
  if g = "cb_person_default_on_file" then
    endsWithStr col "_Y" && (catVal inputs g == "Y")
  else endsWithStr col ("_" ++ catVal inputs g)

/-- Distinct dummy columns of one group share no underscore-headed tail. -/
theorem groups_noSharedTail :
    ∀ g ∈ categoryGroups, ∀ a ∈ oneHotColumns defaultFeatures g,
      ∀ b ∈ oneHotColumns defaultFeatures g, a ≠ b → noSharedTail a b := by decide

/-- C2: in every encoded row, each categorical group has at most one
indicator column set to 1.0 — exactly one when the uppercased input value
matches some column suffix, and none at all (all group columns 0) when it
matches no suffix. -/
theorem claim_C2_one_hot_exclusive (inputs : Inputs) (row : List (String × ℚ))
    (h : buildFeatureVector defaultFeatures inputs = some row)
    (g : String) (hg : g ∈ categoryGroups) :
    row.countP (fun e => decide (e.1 ∈ oneHotColumns defaultFeatures g) && (e.2 == 1)) ≤ 1 ∧
    ((∃ col ∈ oneHotColumns defaultFeatures g, groupMatch inputs g col = true) →
      row.countP
        (fun e => decide (e.1 ∈ oneHotColumns defaultFeatures g) && (e.2 == 1)) = 1) ∧
    ((∀ col ∈ oneHotColumns defaultFeatures g, groupMatch inputs g col = false) →
      ∀ e ∈ row, e.1 ∈ oneHotColumns defaultFeatures g → e.2 = 0) := by
  unfold buildFeatureVector at h
  simp only [bind, Option.bind_eq_some, pure, Option.some.injEq] at h
  obtain ⟨age, -, income, -, emp, -, amnt, -, rate, -, pct, -, hist, -, hrow⟩ := h
  subst hrow
  have hdec := groups_noSharedTail g hg
  simp only [categoryGroups, List.mem_cons, List.not_mem_nil, or_false] at hg
  rcases hg with rfl | rfl | rfl | rfl
  · -- person_home_ownership
    apply C2_glue
    · decide
    · intro col hc
      rcases (mem_oneHotColumns _ _ _).1 hc with ⟨hmem, hgcol⟩
      rw [applyGroup_other defaultFeatures _ "cb_person_default_on_file" _ _ col hgcol
          (by decide),
        applyGroup_other defaultFeatures _ "loan_grade" _ _ col hgcol (by decide),
        applyGroup_other defaultFeatures _ "loan_intent" _ _ col hgcol (by decide),
        applyGroup_own defaultFeatures _ _ _ col hgcol hmem,
        applyNumeric_group defaultFeatures
          [("person_age", age), ("person_income", income), ("person_emp_length", emp), ("loan_amnt", amnt), ("loan_int_rate", rate), ("loan_percent_income", pct), ("cb_person_cred_hist_length", hist)]
          rfl col _ hgcol]
      simp [groupMatch]
    · intro a ha b hb hne hcontra
      apply not_both_endsWith a b (hdec a ha b hb hne)
        (catVal inputs "person_home_ownership")
      simpa [groupMatch] using hcontra
  · -- loan_intent
    apply C2_glue
    · decide
    · intro col hc
      rcases (mem_oneHotColumns _ _ _).1 hc with ⟨hmem, hgcol⟩
      rw [applyGroup_other defaultFeatures _ "cb_person_default_on_file" _ _ col hgcol
          (by decide),
        applyGroup_other defaultFeatures _ "loan_grade" _ _ col hgcol (by decide),
        applyGroup_own defaultFeatures _ _ _ col hgcol hmem,
        applyGroup_other defaultFeatures _ "person_home_ownership" _ _ col hgcol
          (by decide),
        applyNumeric_group defaultFeatures
          [("person_age", age), ("person_income", income), ("person_emp_length", emp), ("loan_amnt", amnt), ("loan_int_rate", rate), ("loan_percent_income", pct), ("cb_person_cred_hist_length", hist)]
          rfl col _ hgcol]
      simp [groupMatch]
    · intro a ha b hb hne hcontra
      apply not_both_endsWith a b (hdec a ha b hb hne) (catVal inputs "loan_intent")
      simpa [groupMatch] using hcontra
  · -- loan_grade
    apply C2_glue
    · decide
    · intro col hc
      rcases (mem_oneHotColumns _ _ _).1 hc with ⟨hmem, hgcol⟩
      rw [applyGroup_other defaultFeatures _ "cb_person_default_on_file" _ _ col hgcol
          (by decide),
        applyGroup_own defaultFeatures _ _ _ col hgcol hmem,
        applyGroup_other defaultFeatures _ "loan_intent" _ _ col hgcol (by decide),
        applyGroup_other defaultFeatures _ "person_home_ownership" _ _ col hgcol
          (by decide),
        applyNumeric_group defaultFeatures
          [("person_age", age), ("person_income", income), ("person_emp_length", emp), ("loan_amnt", amnt), ("loan_int_rate", rate), ("loan_percent_income", pct), ("cb_person_cred_hist_length", hist)]
          rfl col _ hgcol]
      simp [groupMatch]
    · intro a ha b hb hne hcontra
      apply not_both_endsWith a b (hdec a ha b hb hne) (catVal inputs "loan_grade")
      simpa [groupMatch] using hcontra
  · -- cb_person_default_on_file
    apply C2_glue
    · decide
    · intro col hc
      rcases (mem_oneHotColumns _ _ _).1 hc with ⟨hmem, hgcol⟩
      rw [applyGroup_own defaultFeatures _ _ _ col hgcol hmem,
        applyGroup_other defaultFeatures _ "loan_grade" _ _ col hgcol (by decide),
        applyGroup_other defaultFeatures _ "loan_intent" _ _ col hgcol (by decide),
        applyGroup_other defaultFeatures _ "person_home_ownership" _ _ col hgcol
          (by decide),
        applyNumeric_group defaultFeatures
          [("person_age", age), ("person_income", income), ("person_emp_length", emp), ("loan_amnt", amnt), ("loan_int_rate", rate), ("loan_percent_income", pct), ("cb_person_cred_hist_length", hist)]
          rfl col _ hgcol]
      simp [groupMatch]
    · intro a ha b hb hne hcontra
      exfalso
      apply hne
      have hcols : oneHotColumns defaultFeatures "cb_person_default_on_file" =
          ["cb_person_default_on_file_Y"] := by decide
      rw [hcols] at ha hb
      simp only [List.mem_singleton] at ha hb
      rw [ha, hb]

/-- C3: the fixed thresholds of `risk_category`, including exactness at the
boundaries: `p < 0.2` is Low, `0.2 ≤ p < 0.5` is Medium, `0.5 ≤ p` is High,
and 0.1999, 0.2, 0.4999, 0.5 land on Low, Medium, Medium, High. -/
theorem claim_C3_risk_thresholds (p : ℚ) :
    (p < 0.2 → (risk_category p).1 = "Low Risk") ∧
    (0.2 ≤ p ∧ p < 0.5 → (risk_category p).1 = "Medium Risk") ∧
    (0.5 ≤ p → (risk_category p).1 = "High Risk") ∧
    risk_category (1999 / 10000) = ("Low Risk", "#2e7d32") ∧
    risk_category (2 / 10) = ("Medium Risk", "#f9a825") ∧
    risk_category (4999 / 10000) = ("Medium Risk", "#f9a825") ∧
    risk_category (5 / 10) = ("High Risk", "#c62828") := by
  refine ⟨fun h => ?_, fun h => ?_, fun h => ?_, ?_, ?_, ?_, ?_⟩
  · rw [risk_category, if_pos h]
  · rw [risk_category, if_neg (not_lt.2 h.1), if_pos h.2]
  · rw [risk_category, if_neg (not_lt.2 (le_trans (by norm_num) h)),
      if_neg (not_lt.2 h)]
  · rw [risk_category, if_pos (by norm_num)]
  · rw [risk_category, if_neg (by norm_num), if_pos (by norm_num)]
  · rw [risk_category, if_neg (by norm_num), if_pos (by norm_num)]
  · rw [risk_category, if_neg (by norm_num), if_neg (by norm_num)]

/-- C3 witness: the three threshold clauses at concrete probabilities. -/
theorem claim_C3_risk_thresholds_witness :
    (risk_category 0.1).1 = "Low Risk" ∧
    (risk_category 0.3).1 = "Medium Risk" ∧
    (risk_category 0.7).1 = "High Risk" :=
  ⟨(claim_C3_risk_thresholds 0.1).1 (by norm_num),
   (claim_C3_risk_thresholds 0.3).2.1 ⟨by norm_num, by norm_num⟩,
   (claim_C3_risk_thresholds 0.7).2.2.1 (by norm_num)⟩

/-- C8: risk classification is monotonic in the probability, with tiers
ordered Low Risk ≤ Medium Risk ≤ High Risk. -/
theorem claim_C8_risk_monotonic (p1 p2 : ℚ) (h : p1 ≤ p2) :
    tierRank (risk_category p1).1 ≤ tierRank (risk_category p2).1 := by
  unfold risk_category
  split_ifs <;> first
    | decide
    | (exfalso; simp only [not_lt] at *; linarith)

/-- C8 witness: monotonicity at a concrete pair of probabilities. -/
theorem claim_C8_risk_monotonic_witness :
    tierRank (risk_category 0.1).1 ≤ tierRank (risk_category 0.6).1 :=
  claim_C8_risk_monotonic 0.1 0.6 (by norm_num)

/-- C7: when the model failed to load at startup, `/api/defaults` and
`/api/predict` both answer HTTP 500 with a "Model not loaded" error, for every
request payload. -/
theorem claim_C7_model_not_loaded (M : RngModel) (sl : Option ShapLib)
    (data : Option (List (String × RawVal))) :
    api_get_defaults none = (.error "Model not loaded", 500) ∧
    api_predict M sl none data = (.error "Model not loaded", 500) :=
  ⟨rfl, rfl⟩

/-- C9: the encoder reads only the eleven known attribute keys: records that
agree on them encode identically, whatever extra keys either contains. -/
theorem claim_C9_extra_keys_ignored (fns : List String) (i1 i2 : Inputs)
    (h : ∀ k ∈ knownKeys, i1 k = i2 k) :
    buildFeatureVector fns i1 = buildFeatureVector fns i2 := by
  have g1 : i1 "person_age" = i2 "person_age" := h _ (by decide)
  have g2 : i1 "person_income" = i2 "person_income" := h _ (by decide)
  have g3 : i1 "person_emp_length" = i2 "person_emp_length" := h _ (by decide)
  have g4 : i1 "loan_amnt" = i2 "loan_amnt" := h _ (by decide)
  have g5 : i1 "loan_int_rate" = i2 "loan_int_rate" := h _ (by decide)
  have g6 : i1 "loan_percent_income" = i2 "loan_percent_income" := h _ (by decide)
  have g7 : i1 "cb_person_cred_hist_length" = i2 "cb_person_cred_hist_length" :=
    h _ (by decide)
  have g8 : i1 "person_home_ownership" = i2 "person_home_ownership" := h _ (by decide)
  have g9 : i1 "loan_intent" = i2 "loan_intent" := h _ (by decide)
  have g10 : i1 "loan_grade" = i2 "loan_grade" := h _ (by decide)
  have g11 : i1 "cb_person_default_on_file" = i2 "cb_person_default_on_file" :=
    h _ (by decide)
  simp only [buildFeatureVector, catVal, pyGetD, g1, g2, g3, g4, g5, g6, g7, g8, g9,
    g10, g11]

/-- A record with one known key and one extra key. -/
def recordWithExtra : Inputs := fun k =>
  if k = "person_age" then some (.num 30)
  else if k = "some_unknown_key" then some (.str "ignored") else none

/-- The same record without the extra key. -/
def recordWithoutExtra : Inputs := fun k =>
  if k = "person_age" then some (.num 30) else none

/-- C9 witness: adding an unknown key leaves the encoded vector unchanged. -/
theorem claim_C9_extra_keys_ignored_witness :
    buildFeatureVector defaultFeatures recordWithExtra =
      buildFeatureVector defaultFeatures recordWithoutExtra :=
  claim_C9_extra_keys_ignored defaultFeatures recordWithExtra recordWithoutExtra
    (by decide)

/-- C10: an empty JSON object body is rejected exactly like a missing body,
with the 400 "No input data provided" error, even though the encoder itself
would happily produce an all-defaults vector for the empty record. -/
theorem claim_C10_empty_body_rejected (M : RngModel) (sl : Option ShapLib)
    (m : MLModel) :
    api_predict M sl (some m) (some []) = (.error "No input data provided", 400) ∧
    api_predict M sl (some m) (some []) = api_predict M sl (some m) none ∧
    (buildFeatureVector m.featureNames (inputsOfJson [])).isSome = true :=
  ⟨rfl, rfl, rfl⟩

/-- A concrete record selecting RENT for home ownership. -/
def c2record : Inputs :=
  inputsOfJson [("person_age", .num 40), ("person_home_ownership", .str "rent")]

/-- The row `c2record` encodes to. -/
def c2row : List (String × ℚ) :=
  (buildFeatureVector defaultFeatures c2record).getD []

/-- C2 witness: on a concrete record choosing RENT, the home-ownership group
has exactly one indicator set. -/
theorem claim_C2_one_hot_exclusive_witness :
    c2row.countP (fun e =>
      decide (e.1 ∈ oneHotColumns defaultFeatures "person_home_ownership") &&
        (e.2 == 1)) = 1 := by
  have h : buildFeatureVector defaultFeatures c2record = some c2row := rfl
  exact (claim_C2_one_hot_exclusive c2record c2row h "person_home_ownership"
    (by decide)).2.1 (by decide)

/-! ### Background sampling (C6) -/

/-- Rows of a successful background build: exactly `n` of them, each produced
by the Feature Encoder on some sampled record. -/
theorem mkBgRows_spec (M : RngModel) (fns : List String) :
    ∀ (n : ℕ) (s : M.State) (rows : List (List (String × ℚ))),
      mkBgRows M fns n s = some rows →
      rows.length = n ∧
      ∀ row ∈ rows, ∃ sample : Inputs, buildFeatureVector fns sample = some row := by
  intro n
  induction n with
  | zero =>
    intro s rows h
    rw [mkBgRows] at h
    obtain rfl : ([] : List (List (String × ℚ))) = rows := Option.some.inj h
    exact ⟨rfl, by simp⟩
  | succ n ih =>
    intro s rows h
    rw [mkBgRows] at h
    split at h
    next row rest hbfv hrest =>
      obtain rfl : row :: rest = rows := Option.some.inj h
      obtain ⟨hlen, hmem⟩ := ih _ rest hrest
      refine ⟨by simp [hlen], ?_⟩
      intro r hr
      rcases List.mem_cons.1 hr with rfl | hr2
      · exact ⟨_, hbfv⟩
      · exact hmem r hr2
    next h2 =>
      exact Option.noConfusion h

/-- C6: `_make_background` is deterministic — it depends only on the feature
list (the generator is seeded with the constant 42 inside the call), its
default size is 200, and a successful build has exactly `n` rows, each
produced by the Feature Encoder. -/
theorem claim_C6_background_deterministic (M : RngModel) (m1 m2 : MLModel) (n : ℕ)
    (hfeat : m1.featureNames = m2.featureNames) :
    make_background M m1 n = make_background M m2 n ∧
    make_background_default M m1 = make_background M m1 200 ∧
    ∀ rows, make_background M m1 n = some rows →
      rows.length = n ∧
      ∀ row ∈ rows, ∃ sample : Inputs,
        buildFeatureVector m1.featureNames sample = some row := by
  refine ⟨?_, rfl, ?_⟩
  · unfold make_background
    rw [hfeat]
  · intro rows h
    exact mkBgRows_spec M m1.featureNames n (M.init 42) rows h

/-- A deterministic stand-in for the opaque numpy generator. -/
def trivialRng : RngModel where
  State := Unit
  init := fun _ => ()
  normal := fun _ mean _ => (mean, ())
  choice := fun _ opts => (opts.headD "", ())

/-- A one-feature model artifact. -/
def modelA : MLModel where
  featureNames := ["person_age"]
  predictProba1 := fun _ => 0
  predictLabel := fun _ => 0

/-- Same feature list as `modelA`, different predictors. -/
def modelB : MLModel where
  featureNames := ["person_age"]
  predictProba1 := fun _ => 1
  predictLabel := fun _ => 1

/-- C6 witness: two models with the same feature list get identical
backgrounds. -/
theorem claim_C6_background_deterministic_witness :
    make_background trivialRng modelA 2 = make_background trivialRng modelB 2 :=
  (claim_C6_background_deterministic trivialRng modelA modelB 2 rfl).1

/-! ### Attribution fallback and the API error path (C4, C5) -/

/-- `predict_proba` on an encodable record. -/
theorem predict_proba_eq (m : MLModel) (inputs : Inputs) (xrow : List (String × ℚ))
    (hrow : buildFeatureVector m.featureNames inputs = some xrow) :
    predict_proba m inputs =
      some (m.predictProba1 (rowVals xrow), m.predictLabel (rowVals xrow)) := by
  unfold predict_proba
  rw [hrow]
  rfl

/-- If the tree explainer fails on every background, the first try fails. -/
theorem treeTry_error (M : RngModel) (lib : ShapLib) (m : MLModel)
    (xrow : List (String × ℚ)) (etree : String)
    (htree : ∀ bg, lib.treeExplainer bg (rowVals xrow) = .error etree) :
    ∃ e, treeTry M lib m xrow = .error e := by
  unfold treeTry
  cases make_background M m 200 with
  | none => exact ⟨_, rfl⟩
  | some bg => exact ⟨_, htree _⟩

/-- After a tree-explainer failure, the outcome is that of the generic explainer,
with its error message wrapped on failure. -/
theorem shapTries_of_tree_error (M : RngModel) (lib : ShapLib) (m : MLModel)
    (xrow : List (String × ℚ)) (etree : String)
    (htree : ∀ bg, lib.treeExplainer bg (rowVals xrow) = .error etree) :
    shapTries M lib m xrow =
      match lib.genericExplainer (rowVals xrow) with
      | .ok r => .ok r
      | .error e2 => .error ("Failed to compute SHAP values: " ++ e2) := by
  obtain ⟨e, he⟩ := treeTry_error M lib m xrow etree htree
  unfold shapTries
  rw [he]

/-- Unfolding `explain_shap` on an encodable record. -/
theorem explain_shap_eq (M : RngModel) (lib : ShapLib) (m : MLModel) (inputs : Inputs)
    (xrow : List (String × ℚ))
    (hrow : buildFeatureVector m.featureNames inputs = some xrow) :
    explain_shap M (some lib) m inputs =
      match shapTries M lib m xrow with
      | .error e => .error e
      | .ok (shapArr, baseValue) =>
        match predict_proba m inputs with
        | none => .error "could not convert input to float"
        | some pp =>
          .ok (((m.featureNames.zip shapArr).map
              (fun p => { feature := p.1, shap_value := p.2,
                          abs_shap := |p.2| })).insertionSort absDesc,
            baseValue, pp.1) := by
  unfold explain_shap
  rw [hrow]

/-- A shap library stub whose tree and generic explainers both raise. -/
def failingShap : ShapLib where
  treeExplainer := fun _ _ => .error "tree explainer crashed"
  genericExplainer := fun _ => .error "generic explainer crashed"

/-- A shap library stub whose tree explainer raises but whose generic
explainer succeeds. -/
def genOkShap : ShapLib where
  treeExplainer := fun _ _ => .error "tree explainer crashed"
  genericExplainer := fun _ => .ok ([5], 1 / 4)

/-- A one-feature model predicting probability 1/10. -/
def c4model : MLModel where
  featureNames := ["person_age"]
  predictProba1 := fun _ => 1 / 10
  predictLabel := fun _ => 0

/-- A well-formed request body for `c4model`. -/
def c4data : List (String × RawVal) := [("person_age", .num 30)]

/-- C4 counterexample: on a request whose base prediction succeeds
(probability 1/10, label 0) but where both attribution methods fail, the
API answers with a bare 500 error — the response does not contain the base
prediction. -/
theorem claim_C4_counterexample :
    predict_proba c4model (inputsOfJson c4data) = some (1 / 10, 0) ∧
    api_predict trivialRng (some failingShap) (some c4model) (some c4data) =
      (.error "Failed to compute SHAP values: generic explainer crashed", 500) := by
  have hrow : buildFeatureVector c4model.featureNames (inputsOfJson c4data) =
      some [("person_age", 30)] := rfl
  have hshap : explain_shap trivialRng (some failingShap) c4model (inputsOfJson c4data) =
      .error "Failed to compute SHAP values: generic explainer crashed" := by
    rw [explain_shap_eq _ _ _ _ _ hrow,
      shapTries_of_tree_error _ _ _ _ "tree explainer crashed" (fun bg => rfl)]
    rfl
  refine ⟨rfl, ?_⟩
  simp only [api_predict, pyFalsyJson, Option.getD_some]
  rw [predict_proba_eq _ _ _ hrow, hshap]
  rfl

/-- C4 (amended): when the tree-aware attribution fails, `explain_shap` does
fall back to the generic method and, when that succeeds, still returns the
full explanation; but when the fallback also fails, the `/api/predict`
response is only a 500 error carrying the exception message — the base
prediction is not returned. -/
theorem claim_C4_attribution_fallback (M : RngModel) (lib : ShapLib) (m : MLModel)
    (data : List (String × RawVal)) (xrow : List (String × ℚ)) (etree : String)
    (hdata : data ≠ [])
    (hrow : buildFeatureVector m.featureNames (inputsOfJson data) = some xrow)
    (htree : ∀ bg, lib.treeExplainer bg (rowVals xrow) = .error etree) :
    (∀ arr base, lib.genericExplainer (rowVals xrow) = .ok (arr, base) →
      explain_shap M (some lib) m (inputsOfJson data) =
        .ok (((m.featureNames.zip arr).map
            (fun p => { feature := p.1, shap_value := p.2,
                        abs_shap := |p.2| })).insertionSort absDesc,
          base, m.predictProba1 (rowVals xrow))) ∧
    (∀ egen, lib.genericExplainer (rowVals xrow) = .error egen →
      api_predict M (some lib) (some m) (some data) =
        (.error ("Failed to compute SHAP values: " ++ egen), 500)) := by
  constructor
  · intro arr base hgen
    rw [explain_shap_eq _ _ _ _ _ hrow,
      shapTries_of_tree_error _ _ _ _ etree htree, hgen,
      predict_proba_eq _ _ _ hrow]
  · intro egen hgen
    have hshap : explain_shap M (some lib) m (inputsOfJson data) =
        .error ("Failed to compute SHAP values: " ++ egen) := by
      rw [explain_shap_eq _ _ _ _ _ hrow,
        shapTries_of_tree_error _ _ _ _ etree htree, hgen]
    have hne : data.isEmpty = false := by
      cases data with
      | nil => exact absurd rfl hdata
      | cons a l => rfl
    simp only [api_predict, pyFalsyJson, Option.getD_some, hne, Bool.false_eq_true,
      if_false]
    rw [predict_proba_eq _ _ _ hrow, hshap]

/-- C4 (amended) witness: the fallback path on concrete inputs — tree fails,
the generic explainer succeeds, and `explain_shap` returns its result. -/
theorem claim_C4_attribution_fallback_witness :
    explain_shap trivialRng (some genOkShap) c4model (inputsOfJson c4data) =
      .ok ([{ feature := "person_age", shap_value := 5, abs_shap := |(5 : ℚ)| }],
        1 / 4, 1 / 10) := by
  have h := (claim_C4_attribution_fallback trivialRng genOkShap c4model c4data
    [("person_age", 30)] "tree explainer crashed" (by decide) rfl
    (fun bg => rfl)).1 [5] (1 / 4) rfl
  rw [h]
  rfl

/-- Whatever `explain_shap` returns successfully is sorted by descending
absolute contribution. -/
theorem explain_shap_ok_sorted (M : RngModel) (sl : Option ShapLib) (m : MLModel)
    (inputs : Inputs) (df : List Contrib) (b pp : ℚ)
    (h : explain_shap M sl m inputs = .ok (df, b, pp)) :
    List.Sorted absDesc df := by
  unfold explain_shap at h
  split at h
  · exact Except.noConfusion h
  split at h
  · exact Except.noConfusion h
  split at h
  · exact Except.noConfusion h
  split at h
  · exact Except.noConfusion h
  simp only [Except.ok.injEq, Prod.mk.injEq] at h
  obtain ⟨rfl, -, -⟩ := h
  exact List.sorted_insertionSort absDesc _

/-- In a list sorted by descending absolute contribution, every kept element
dominates every dropped one. -/
theorem sorted_take_dominates (l : List Contrib) (n : ℕ) (h : List.Sorted absDesc l) :
    ∀ x ∈ l.take n, ∀ y ∈ l.drop n, y.abs_shap ≤ x.abs_shap := by
  have h2 : List.Pairwise absDesc (l.take n ++ l.drop n) := by
    rw [List.take_append_drop n l]
    exact h
  exact (List.pairwise_append.1 h2).2.2

/-- C5: a successful `/api/predict` response carries the first 20 records of
the descending-|contribution| sorted attribution list — hence at most 20, all
dominating the dropped records — together with the baseline probability and
the recomputed predicted probability from the meta of `explain_shap`. -/
theorem claim_C5_sorted_top20 (M : RngModel) (sl : Option ShapLib) (m : MLModel)
    (data : List (String × RawVal)) (p : ℚ) (pr : ℤ) (lab colr : String)
    (shap : List Contrib) (bv ppv : ℚ) (st : ℕ)
    (h : api_predict M sl (some m) (some data) = (.ok p pr lab colr shap bv ppv, st)) :
    ∃ df, explain_shap M sl m (inputsOfJson data) = .ok (df, bv, ppv) ∧
      List.Sorted absDesc df ∧ shap = df.take 20 ∧ shap.length ≤ 20 ∧
      List.Sorted absDesc shap ∧
      ∀ x ∈ shap, ∀ y ∈ df.drop 20, y.abs_shap ≤ x.abs_shap := by
  simp only [api_predict, pyFalsyJson, Option.getD_some] at h
  split at h
  · simp at h
  split at h
  · simp at h
  split at h
  · simp at h
  next pp hpp r hshap =>
    simp only [Prod.mk.injEq, ApiResp.ok.injEq] at h
    obtain ⟨⟨-, -, -, -, rfl, rfl, rfl⟩, -⟩ := h
    have hsort : List.Sorted absDesc r.1 :=
      explain_shap_ok_sorted M sl m (inputsOfJson data) r.1 r.2.1 r.2.2 (by rw [hshap])
    exact ⟨r.1, by rw [hshap], hsort, rfl, List.length_take_le 20 r.1,
      hsort.sublist (List.take_sublist 20 r.1),
      sorted_take_dominates r.1 20 hsort⟩

/-- A one-feature model predicting probability 0. -/
def c5model : MLModel where
  featureNames := ["person_age"]
  predictProba1 := fun _ => 0
  predictLabel := fun _ => 0

/-- A shap stub: tree explainer raises, generic returns one contribution with
baseline 2. -/
def c5shap : ShapLib where
  treeExplainer := fun _ _ => .error "tree explainer crashed"
  genericExplainer := fun _ => .ok ([-7], 2)

/-- A request body for `c5model`. -/
def c5data : List (String × RawVal) := [("person_age", .num 30)]

/-- The attribution DataFrame this produces. -/
def c5df : List Contrib :=
  [ { feature := "person_age", shap_value := -7, abs_shap := |(-7 : ℚ)| } ]

/-- C5 witness: on a concrete request the attribution list of the response is the
take-20 of the sorted list, which here is the whole sorted list. -/
theorem claim_C5_sorted_top20_witness :
    List.Sorted absDesc c5df ∧ c5df = c5df.take 20 ∧ c5df.length ≤ 20 := by
  have hrow : buildFeatureVector c5model.featureNames (inputsOfJson c5data) =
      some [("person_age", 30)] := rfl
  have hshap : explain_shap trivialRng (some c5shap) c5model (inputsOfJson c5data) =
      .ok (c5df, 2, 0) := by
    rw [explain_shap_eq _ _ _ _ _ hrow,
      shapTries_of_tree_error _ _ _ _ "tree explainer crashed" (fun bg => rfl)]
    rfl
  have hrc : risk_category 0 = ("Low Risk", "#2e7d32") := by
    rw [risk_category, if_pos (by norm_num)]
  have happ : api_predict trivialRng (some c5shap) (some c5model) (some c5data) =
      (.ok 0 0 "Low Risk" "#2e7d32" c5df 2 0, 200) := by
    simp only [api_predict, pyFalsyJson, Option.getD_some]
    rw [predict_proba_eq _ _ _ hrow, hshap]
    show (_, _) = _
    rw [show c5model.predictProba1 (rowVals [("person_age", 30)]) = 0 from rfl, hrc]
    rfl
  obtain ⟨df, hdf, hsorted, htake, hlen, -, -⟩ :=
    claim_C5_sorted_top20 trivialRng (some c5shap) c5model c5data
      0 0 "Low Risk" "#2e7d32" c5df 2 0 200 happ
  have hdfeq : df = c5df := by
    rw [hshap] at hdf
    simpa using hdf.symm
  subst hdfeq
  exact ⟨hsorted, htake, hlen⟩

end CreditRisk
